import Mathlib

/-!
Verification development for the PDF overlay-redaction auditor
(`pdf_overlay_audit.py`) and the advanced security audit module
(`pdf_security_audit_advanced.py`).

The Python code is shallowly embedded: Python floats are modelled as `ℚ`
(all arithmetic appearing in the audited functions is exact on the inputs
considered), Python ints as `ℤ`, tuples/lists as `List`, `None`-able
values as `Option`.  PyMuPDF (`fitz`) rectangle semantics are embedded
following the library's `Rect` class: `is_empty` is `x0 >= x1 or y0 >= y1`,
`is_valid` is `x0 <= x1 and y0 <= y1`, `width`/`height` are
`max(0, x1 - x0)` / `max(0, y1 - y0)`, `get_area` is `width * height`,
and `&` intersects component-wise with `max`/`min`.
-/

/-- Model of `fitz.Rect`: four rational bounds. -/
structure Rect where
  x0 : ℚ
  y0 : ℚ
  x1 : ℚ
  y1 : ℚ
deriving DecidableEq, Repr

/-- Model of `fitz.Rect.width`: `max(0, x1 - x0)`. -/
def Rect.width (r : Rect) : ℚ := max 0 (r.x1 - r.x0)

/-- Model of `fitz.Rect.height`: `max(0, y1 - y0)`. -/
def Rect.height (r : Rect) : ℚ := max 0 (r.y1 - r.y0)

/-- Model of `fitz.Rect.get_area()` (default unit): `width * height`. -/
def Rect.get_area (r : Rect) : ℚ := r.width * r.height

/-- Model of `fitz.Rect.is_empty`: `x0 >= x1 or y0 >= y1`. -/
def Rect.is_empty (r : Rect) : Bool := decide (r.x1 ≤ r.x0) || decide (r.y1 ≤ r.y0)

/-- Model of `fitz.Rect.is_valid`: `x0 <= x1 and y0 <= y1`. -/
def Rect.is_valid (r : Rect) : Bool := decide (r.x0 ≤ r.x1) && decide (r.y0 ≤ r.y1)

/-- Model of the `fitz.Rect` intersection operator `&`: component-wise
`max` of the lower bounds and `min` of the upper bounds. -/
def Rect.inter (r1 r2 : Rect) : Rect :=
  ⟨max r1.x0 r2.x0, max r1.y0 r2.y0, min r1.x1 r2.x1, min r1.y1 r2.y1⟩

/-- Embedding of `compute_overlap_area` (pdf_overlay_audit.py, lines 71-85):
intersect the two rectangles; return 0 if the intersection `is_empty` or not
`is_valid`, else its `get_area`. -/
def compute_overlap_area (rect1 rect2 : Rect) : ℚ :=
  let intersection := rect1.inter rect2
  if intersection.is_empty || !intersection.is_valid then 0
  else intersection.get_area

/-- Embedding of `is_color_black` (pdf_overlay_audit.py, lines 39-68).
A color tuple (or `None`) is modelled as a `List ℚ`, the empty list standing
for both `None` and the empty tuple (both falsy in `if not color`).  The
Python `if`-chain on `len(color)` becomes a match on the list shape; the
final branch is the code's fallback `all(c <= threshold for c in color)`. -/
def is_color_black (color : List ℚ) (threshold : ℚ) : Bool :=
  match color with
  | [] => false
  | [g] => decide (g ≤ threshold)
  | [r, g, b] => decide (r ≤ threshold) && decide (g ≤ threshold) && decide (b ≤ threshold)
  | [c, m, y, k] =>
      decide (1 - threshold ≤ k) && decide (c ≤ threshold) &&
      decide (m ≤ threshold) && decide (y ≤ threshold)
  | _ => color.all fun comp => decide (comp ≤ threshold)

/-- Spec-side notion used by C5: a rectangle is degenerate when it has zero
area. -/
def Rect.degenerate (r : Rect) : Prop := r.get_area = 0

/-- Spec-side notion used by C5: two rectangles are disjoint when they are
separated along one of the axes. -/
def Rect.disjoint (a b : Rect) : Prop :=
  a.x1 ≤ b.x0 ∨ b.x1 ≤ a.x0 ∨ a.y1 ≤ b.y0 ∨ b.y1 ≤ a.y0

/-- Spec-side notion used by C5: `a` lies fully inside `b`. -/
def Rect.insideOf (a b : Rect) : Prop :=
  b.x0 ≤ a.x0 ∧ a.x1 ≤ b.x1 ∧ b.y0 ≤ a.y0 ∧ a.y1 ≤ b.y1

/-- Model of one entry of `page.get_drawings()` as consumed by
`extract_black_rectangles`: a fill color (`[]` models a missing/`None`/empty
fill, all falsy in `if not fill_color`), the optional `drawing["rect"]`, and
the items list, where `some r` models an item whose second element is a
`fitz.Rect` (the `len(item) >= 2 and isinstance(item[1], fitz.Rect)` test). -/
structure Drawing where
  fill : List ℚ
  rect : Option Rect
  items : List (Option Rect)
deriving DecidableEq, Repr

/-- Model of one span of `page.get_text("rawdict")`: its `bbox` (possibly
absent or of the wrong arity) together with its character content, which
`get_text_rectangles` must never use. -/
structure RawSpan where
  bbox : Option (List ℚ)
  chars : String
deriving DecidableEq, Repr

/-- Model of one line of a rawdict text block. -/
structure RawLine where
  spans : List RawSpan
deriving DecidableEq, Repr

/-- Model of one rawdict block: its `type` (0 = text, 1 = image) and lines. -/
structure RawBlock where
  type : ℤ
  lines : List RawLine
deriving DecidableEq, Repr

/-- Model of the `page.get_text("rawdict")` dictionary. -/
structure RawDict where
  blocks : List RawBlock
deriving DecidableEq, Repr

/-- Model of a `fitz.Page` as consumed by the overlay auditor: its bounding
rectangle, its drawings and its rawdict text structure. -/
structure Page where
  rect : Rect
  drawings : List Drawing
  rawdict : RawDict
deriving DecidableEq, Repr

/-- Candidate rectangles of one drawing (pdf_overlay_audit.py, lines 125-136):
the main `drawing["rect"]` when present, followed by every item whose second
element is a `fitz.Rect`. -/
def drawing_candidates (d : Drawing) : List Rect :=
  (match d.rect with
   | some r => [r]
   | none => []) ++ d.items.filterMap id

/-- Per-candidate filter of `extract_black_rectangles` (lines 139-149): drop
rectangles thinner than `min_dimension` in either axis, and drop rectangles
of positive area covering more than `max_coverage` of the page area.
Division by a zero `page_area` would raise `ZeroDivisionError` in Python; the
`ℚ` model (where `x / 0 = 0`) is only used on pages of positive area. -/
def keep_rect (page_area min_dimension max_coverage : ℚ) (r : Rect) : Bool :=
  !(decide (r.width < min_dimension) || decide (r.height < min_dimension)) &&
  !(decide (0 < r.get_area) && decide (max_coverage < r.get_area / page_area))

/-- The main loop of `extract_black_rectangles` (lines 115-149): for each
drawing, skip it unless it has a fill and the fill is black-like, then keep
the candidate rectangles passing `keep_rect`, appending in drawing order. -/
def drawings_black_rects (black_threshold page_area min_dimension max_coverage : ℚ) :
    List Drawing → List Rect
  | [] => []
  | d :: rest =>
    (if d.fill = [] then []
     else if !is_color_black d.fill black_threshold then []
     else (drawing_candidates d).filter (keep_rect page_area min_dimension max_coverage)) ++
    drawings_black_rects black_threshold page_area min_dimension max_coverage rest

/-- The near-identity test of the de-duplication pass (lines 154-155): all
four coordinates differ by less than 0.5. -/
def rect_close (r u : Rect) : Bool :=
  decide (|r.x0 - u.x0| < 1/2) && decide (|r.y0 - u.y0| < 1/2) &&
  decide (|r.x1 - u.x1| < 1/2) && decide (|r.y1 - u.y1| < 1/2)

/-- The de-duplication pass of `extract_black_rectangles` (lines 151-156):
append each rectangle to `unique` unless a near-identical one is already
there. -/
def dedup_rects (unique : List Rect) : List Rect → List Rect
  | [] => unique
  | r :: rest =>
    if unique.any fun u => rect_close r u then dedup_rects unique rest
    else dedup_rects (unique ++ [r]) rest

/-- Embedding of `extract_black_rectangles` (pdf_overlay_audit.py, lines
88-158): collect black filled candidate rectangles from the drawings, then
de-duplicate.  The `try/except` around `get_drawings()` is not modelled: the
`Page` structure holds the already-extracted drawings. -/
def extract_black_rectangles (page : Page)
    (black_threshold min_dimension max_coverage : ℚ) : List Rect :=
  dedup_rects []
    (drawings_black_rects black_threshold page.rect.get_area min_dimension max_coverage
      page.drawings)

/-- The span test of `get_text_rectangles` (lines 189-192): `bbox` must be
truthy (present and non-empty) and of length 4; then `fitz.Rect(*bbox)` is
built.  Only the bbox is consulted, never the span's characters. -/
def span_rect_of_bbox (bbox : Option (List ℚ)) : Option Rect :=
  match bbox with
  | some [a, b, c, d] => some ⟨a, b, c, d⟩
  | _ => none

/-- Rectangles contributed by the spans of one line (lines 188-192). -/
def spans_rects : List RawSpan → List Rect
  | [] => []
  | s :: rest =>
    match span_rect_of_bbox s.bbox with
    | some r => r :: spans_rects rest
    | none => spans_rects rest

/-- Rectangles contributed by the lines of one block (lines 187-192). -/
def lines_rects : List RawLine → List Rect
  | [] => []
  | l :: rest => spans_rects l.spans ++ lines_rects rest

/-- Rectangles contributed by the blocks of a rawdict (lines 182-192):
non-text blocks (`type != 0`) are skipped. -/
def blocks_rects : List RawBlock → List Rect
  | [] => []
  | b :: rest => (if b.type = 0 then lines_rects b.lines else []) ++ blocks_rects rest

/-- Embedding of `get_text_rectangles` (pdf_overlay_audit.py, lines 161-198):
span-based geometry-only extraction over the page's rawdict.  The
`try/except` around text extraction is not modelled: the `Page` structure
holds the already-extracted rawdict. -/
def get_text_rectangles (page : Page) : List Rect :=
  blocks_rects page.rawdict.blocks

/-- Inner loop of `detect_overlaps` (lines 223-226): a black rectangle counts
once if it overlaps some text rectangle by at least `min_overlap_area`. -/
def rect_overlaps_any (black_rect : Rect) (text_rects : List Rect)
    (min_overlap_area : ℚ) : Bool :=
  text_rects.any fun text_rect =>
    decide (min_overlap_area ≤ compute_overlap_area black_rect text_rect)

/-- Outer loop of `detect_overlaps` (lines 219-232) with its running
`overlap_count` accumulator: after each black rectangle, if `stop_after` is
set and the count has reached it, return immediately. -/
def detect_overlaps_go (text_rects : List Rect) (min_overlap_area : ℚ)
    (stop_after : Option ℤ) : List Rect → ℤ → ℤ
  | [], overlap_count => overlap_count
  | black_rect :: rest, overlap_count =>
    let count2 :=
      if rect_overlaps_any black_rect text_rects min_overlap_area then overlap_count + 1
      else overlap_count
    match stop_after with
    | some k => if k ≤ count2 then count2
                else detect_overlaps_go text_rects min_overlap_area (some k) rest count2
    | none => detect_overlaps_go text_rects min_overlap_area none rest count2

/-- Embedding of `detect_overlaps` (pdf_overlay_audit.py, lines 201-232). -/
def detect_overlaps (black_rects text_rects : List Rect) (min_overlap_area : ℚ)
    (stop_after : Option ℤ) : ℤ :=
  detect_overlaps_go text_rects min_overlap_area stop_after black_rects 0

/-- Model of the `PageRisk` dataclass (pdf_overlay_audit.py, lines 20-27). -/
structure PageRisk where
  page_number : ℤ
  black_rect_count : ℤ
  overlap_count : ℤ
  confidence_score : ℤ
  heuristic : String
deriving DecidableEq, Repr

/-- Embedding of `audit_page` (pdf_overlay_audit.py, lines 235-295).
`extract_black_rectangles` is invoked with the source defaults
`min_dimension = 2.0` and `max_coverage_ratio = 0.95`; the confidence score
adds +3 for a non-empty fill list, +3 when the overlap count meets
`min_hits`, +1 when some fill has `width > height * 3`, and +1 when at least
three fills exist; the page is flagged only when the overlap count meets
`min_hits`. -/
def audit_page (page : Page) (page_num : ℤ) (black_threshold min_overlap_area : ℚ)
    (min_hits : ℤ) : Option PageRisk :=
  let black_rects := extract_black_rectangles page black_threshold 2 (19/20)
  if black_rects = [] then none
  else
    let text_rects := get_text_rectangles page
    if text_rects = [] then none
    else
      let overlap_count :=
        detect_overlaps black_rects text_rects min_overlap_area (some min_hits)
      let score : ℤ :=
        (if 0 < black_rects.length then 3 else 0)
        + (if min_hits ≤ overlap_count then 3 else 0)
        + (if 0 < (black_rects.filter fun r => decide (r.height * 3 < r.width)).length
           then 1 else 0)
        + (if 3 ≤ black_rects.length then 1 else 0)
      if min_hits ≤ overlap_count then
        some { page_number := page_num
               black_rect_count := (black_rects.length : ℤ)
               overlap_count := overlap_count
               confidence_score := score
               heuristic := "black_fill_rect_overlap_text" }
      else none

/-- Model of the `PDFRiskReport` dataclass (pdf_overlay_audit.py, lines
30-36). -/
structure PDFRiskReport where
  filename : String
  total_pages : ℤ
  flagged_pages : List PageRisk
  error : Option String
deriving DecidableEq, Repr

/-- Model of an opened `fitz` document as consumed by `audit_pdf`: its pages,
the `is_encrypted` flag, and the result of `authenticate("")`. -/
structure Doc where
  pages : List Page
  is_encrypted : Bool
  auth_empty : Bool
deriving Repr

/-- The page loop of `audit_pdf` (lines 335-348): audit pages in order with
1-indexed page numbers, collecting the flagged ones. -/
def audit_pages_from (black_threshold min_overlap_area : ℚ) (min_hits : ℤ) :
    ℤ → List Page → List PageRisk
  | _, [] => []
  | page_num, p :: rest =>
    match audit_page p page_num black_threshold min_overlap_area min_hits with
    | some risk =>
        risk :: audit_pages_from black_threshold min_overlap_area min_hits (page_num + 1) rest
    | none => audit_pages_from black_threshold min_overlap_area min_hits (page_num + 1) rest

/-- The error message of the encrypted short-circuit (line 326). -/
def encrypted_error_msg : String := "PDF is encrypted and requires a password"

/-- Embedding of `audit_pdf` (pdf_overlay_audit.py, lines 298-366) on an
already-opened document: if the document is encrypted and empty-password
authentication fails, return the explicit error report with `total_pages = 0`
and no flagged pages, touching no page; otherwise audit every page.  The
open-failure exception handlers (file not found / corrupt / permission) are
not modelled: the `Doc` structure is the successfully-opened document. -/
def audit_pdf (filename : String) (doc : Doc) (black_threshold min_overlap_area : ℚ)
    (min_hits : ℤ) : PDFRiskReport :=
  if doc.is_encrypted && !doc.auth_empty then
    { filename := filename
      total_pages := 0
      flagged_pages := []
      error := some encrypted_error_msg }
  else
    { filename := filename
      total_pages := (doc.pages.length : ℤ)
      flagged_pages := audit_pages_from black_threshold min_overlap_area min_hits 1 doc.pages
      error := none }

/-- Embedding of `audit_directory` (pdf_overlay_audit.py, lines 369-408) on
the already-globbed, sorted list of (filename, document) pairs: every file is
audited by `audit_pdf`, which never raises (all per-document failures are
caught inside it and reported in the `error` field). -/
def audit_directory (files : List (String × Doc)) (black_threshold min_overlap_area : ℚ)
    (min_hits : ℤ) : List PDFRiskReport :=
  files.map fun fd => audit_pdf fd.1 fd.2 black_threshold min_overlap_area min_hits

/-- Projection of the `AdvancedSecurityFindings` dataclass
(pdf_security_audit_advanced.py, lines 37-110) to exactly the fields read by
`calculate_risk_score`; the remaining fields of the dataclass (counts, page
lists, metadata details, ...) are never consulted by the scorer.
`reviewer_names` keeps its list type because the scorer tests its Python
truthiness (non-emptiness). -/
structure AdvancedSecurityFindings where
  has_hidden_text : Bool
  overlay_risk : String
  has_signatures : Bool
  has_javascript : Bool
  has_external_links : Bool
  has_remote_resources : Bool
  has_metadata : Bool
  has_attachments : Bool
  reviewer_names : List String
  has_ocr_layer : Bool
  incremental_updates : Bool
  has_forms : Bool
  has_thumbnails : Bool
  has_structure_tags : Bool
deriving DecidableEq, Repr

/-- Embedding of `calculate_risk_score` (pdf_security_audit_advanced.py,
lines 468-525): sequential additions of the fixed weights of each applicable
signal, then `min(score, 100)`. -/
def calculate_risk_score (findings : AdvancedSecurityFindings) : ℤ :=
  let s1 : ℤ := 0 + (if findings.has_hidden_text then 15 else 0)
  let s2 := s1 + (if findings.overlay_risk = "YES" ∨ findings.overlay_risk = "MAYBE"
                  then (if findings.overlay_risk = "YES" then 20 else 10) else 0)
  let s3 := s2 + (if findings.has_signatures then 10 else 0)
  let s4 := s3 + (if findings.has_javascript then 15 else 0)
  let s5 := s4 + (if findings.has_external_links ∨ findings.has_remote_resources
                  then 10 else 0)
  let s6 := s5 + (if findings.has_metadata then 5 else 0)
  let s7 := s6 + (if findings.has_attachments then 5 else 0)
  let s8 := s7 + (if findings.reviewer_names ≠ [] then 5 else 0)
  let s9 := s8 + (if findings.has_ocr_layer then 3 else 0)
  let s10 := s9 + (if findings.incremental_updates then 5 else 0)
  let s11 := s10 + (if findings.has_forms then 2 else 0)
  let s12 := s11 + (if findings.has_thumbnails then 2 else 0)
  let s13 := s12 + (if findings.has_structure_tags then 1 else 0)
  min s13 100

/-- The individual weight contributions of `calculate_risk_score`, in source
order, used to state order-independence of the additive scoring. -/
def risk_contributions (findings : AdvancedSecurityFindings) : List ℤ :=
  [ (if findings.has_hidden_text then 15 else 0),
    (if findings.overlay_risk = "YES" ∨ findings.overlay_risk = "MAYBE"
     then (if findings.overlay_risk = "YES" then 20 else 10) else 0),
    (if findings.has_signatures then 10 else 0),
    (if findings.has_javascript then 15 else 0),
    (if findings.has_external_links ∨ findings.has_remote_resources then 10 else 0),
    (if findings.has_metadata then 5 else 0),
    (if findings.has_attachments then 5 else 0),
    (if findings.reviewer_names ≠ [] then 5 else 0),
    (if findings.has_ocr_layer then 3 else 0),
    (if findings.incremental_updates then 5 else 0),
    (if findings.has_forms then 2 else 0),
    (if findings.has_thumbnails then 2 else 0),
    (if findings.has_structure_tags then 1 else 0) ]

/-- Model of one entry of `doc.extract_image(xref)` as consumed by
`check_ocr_layer`: the extracted image's width and height (the code's
`img.get("width", 0)` defaults are baked into the stored values). -/
structure SecImage where
  width : ℤ
  height : ℤ
deriving DecidableEq, Repr

/-- Model of a page as consumed by `check_ocr_layer`: its embedded images
(in `page.get_images()` order) and the result of `page.get_text().strip()`
(so `text ≠ ""` models the code's `has_text`). -/
structure SecPage where
  images : List SecImage
  text : String
deriving DecidableEq, Repr

/-- The per-page OCR test of `check_ocr_layer` (lines 228-246): the page has
at least one image, its FIRST image (`images[0]`) is strictly larger than
1000 in both dimensions, and the page has non-empty stripped text. -/
def page_is_ocr (p : SecPage) : Bool :=
  match p.images with
  | [] => false
  | img :: _ =>
      decide (1000 < img.width) && decide (1000 < img.height) && decide (p.text ≠ "")

/-- The `ocr_pages` accumulation of `check_ocr_layer` with 1-indexed page
numbers (`enumerate(doc, 1)`). -/
def ocr_pages_from (page_num : ℤ) : List SecPage → List ℤ
  | [] => []
  | p :: rest =>
    if page_is_ocr p then page_num :: ocr_pages_from (page_num + 1) rest
    else ocr_pages_from (page_num + 1) rest

/-- Embedding of `check_ocr_layer` (pdf_security_audit_advanced.py, lines
205-263), returning `(has_ocr, ocr_pages, is_scanned)`: a document is
`is_scanned` when strictly more than 30% of its pages are OCR pages
(`len(ocr_pages) > len(doc) * 0.3`, the float multiplication modelled
exactly over `ℚ`), or when every page has an image and every page has text.
The `try/except` around `extract_image` is not modelled: images carry their
stored dimensions. -/
def check_ocr_layer (pages : List SecPage) : Bool × List ℤ × Bool :=
  let ocr_pages := ocr_pages_from 1 pages
  let total_image_pages := (pages.filter fun p => decide (p.images ≠ [])).length
  let total_text_pages := (pages.filter fun p => decide (p.text ≠ "")).length
  let is_scanned :=
    decide ((pages.length : ℚ) * (3/10) < (ocr_pages.length : ℚ)) ||
    (decide (total_image_pages = pages.length) && decide (total_text_pages = pages.length))
  (decide (0 < ocr_pages.length), ocr_pages, is_scanned)

/-- Concrete page realizing the C1 scenario: one black grayscale fill drawing
a rectangle (0,0,20,20) on a US-letter page, and three text spans at
(5,5,10,10), (15,15,20,20) and (100,100,110,110). -/
def c1_page : Page :=
  { rect := ⟨0, 0, 612, 792⟩
    drawings := [{ fill := [0], rect := some ⟨0, 0, 20, 20⟩, items := [] }]
    rawdict := { blocks := [
      { type := 0
        lines := [{ spans := [
          { bbox := some [5, 5, 10, 10], chars := "he" },
          { bbox := some [15, 15, 20, 20], chars := "ll" },
          { bbox := some [100, 100, 110, 110], chars := "o" }] }] }] } }

/-- The `PageRisk` that `audit_page` actually returns on `c1_page` with the
C1 parameters. -/
def c1_risk : PageRisk :=
  { page_number := 1
    black_rect_count := 1
    overlap_count := 1
    confidence_score := 6
    heuristic := "black_fill_rect_overlap_text" }

/-- Findings used by C6: hidden text, definite overlay risk and JavaScript
set, every other signal clear. -/
def c6_findings : AdvancedSecurityFindings :=
  { has_hidden_text := true
    overlay_risk := "YES"
    has_signatures := false
    has_javascript := true
    has_external_links := false
    has_remote_resources := false
    has_metadata := false
    has_attachments := false
    reviewer_names := []
    has_ocr_layer := false
    incremental_updates := false
    has_forms := false
    has_thumbnails := false
    has_structure_tags := false }

/-- Page used by the C8 counterexample: its first image is exactly
1000 x 1000 (so it is "at least 1000 x 1000" in the claim's sense) and it
has non-empty text. -/
def c8_page_exact1000 : SecPage :=
  { images := [{ width := 1000, height := 1000 }], text := "x" }

/-- Page used by the C8 witness: its first image is strictly larger than
1000 in both dimensions and it has non-empty text. -/
def c8_page_1001 : SecPage :=
  { images := [{ width := 1400, height := 1001 }], text := "scanned page" }

/-- Page used by the C9 witness: two spans with sensitive character
content. -/
def c9_page_redacted : Page :=
  { rect := ⟨0, 0, 612, 792⟩
    drawings := []
    rawdict := { blocks := [
      { type := 0
        lines := [{ spans := [
          { bbox := some [5, 5, 10, 10], chars := "top secret" },
          { bbox := some [15, 15, 20, 20], chars := "classified" }] }] }] } }

/-- Page used by the C9 witness: identical geometry to `c9_page_redacted`
with all character content blanked. -/
def c9_page_blank : Page :=
  { rect := ⟨0, 0, 612, 792⟩
    drawings := []
    rawdict := { blocks := [
      { type := 0
        lines := [{ spans := [
          { bbox := some [5, 5, 10, 10], chars := "" },
          { bbox := some [15, 15, 20, 20], chars := "" }] }] }] } }

/-- Upper bound of the early-exit loop: starting strictly below the stop
threshold, the returned count never exceeds it (each step adds at most one
and the loop returns as soon as the threshold is reached). -/
theorem detect_go_le (text_rects : List Rect) (moa : ℚ) (k : ℤ) :
    ∀ (bs : List Rect) (acc : ℤ), acc < k →
      detect_overlaps_go text_rects moa (some k) bs acc ≤ k := by
  intro bs
  induction bs with
  | nil => intro acc h; exact le_of_lt h
  | cons b rest ih =>
    intro acc h
    simp only [detect_overlaps_go]
    split <;> split <;> first | omega | exact ih _ (by omega)

/-- Monotonicity of the unbounded loop in its accumulator. -/
theorem detect_go_none_ge (text_rects : List Rect) (moa : ℚ) :
    ∀ (bs : List Rect) (acc : ℤ), acc ≤ detect_overlaps_go text_rects moa none bs acc := by
  intro bs
  induction bs with
  | nil => intro acc; simp [detect_overlaps_go]
  | cons b rest ih =>
    intro acc
    simp only [detect_overlaps_go]
    split <;> [exact le_trans (by omega) (ih (acc + 1)); exact ih acc]

/-- Characterization of the early-exit loop: below the stop threshold it
computes the minimum of the unbounded count and the threshold. -/
theorem detect_go_min (text_rects : List Rect) (moa : ℚ) (k : ℤ) :
    ∀ (bs : List Rect) (acc : ℤ), acc < k →
      detect_overlaps_go text_rects moa (some k) bs acc =
        min (detect_overlaps_go text_rects moa none bs acc) k := by
  intro bs
  induction bs with
  | nil => intro acc h; simp [detect_overlaps_go]; omega
  | cons b rest ih =>
    intro acc h
    simp only [detect_overlaps_go]
    split
    · next hhit =>
      by_cases hk : k ≤ acc + 1
      · have hk2 : acc + 1 = k := by omega
        rw [if_pos hk]
        have := detect_go_none_ge text_rects moa rest (acc + 1)
        omega
      · rw [if_neg hk]
        exact ih (acc + 1) (by omega)
    · next hhit =>
      rw [if_neg (by omega)]
      exact ih acc h

/-- Inversion of a flagged `audit_page` call: the fill list is non-empty, the
capped overlap count meets `min_hits`, the reported count is that capped
count, and the confidence score is 6 plus two 0/1 bonuses. -/
theorem audit_page_some_inv (page : Page) (page_num : ℤ) (bt moa : ℚ) (mh : ℤ)
    (pr : PageRisk) (h : audit_page page page_num bt moa mh = some pr) :
    extract_black_rectangles page bt 2 (19/20) ≠ [] ∧
    mh ≤ detect_overlaps (extract_black_rectangles page bt 2 (19/20))
          (get_text_rectangles page) moa (some mh) ∧
    pr.overlap_count = detect_overlaps (extract_black_rectangles page bt 2 (19/20))
          (get_text_rectangles page) moa (some mh) ∧
    ∃ e1 e2 : ℤ, (e1 = 0 ∨ e1 = 1) ∧ (e2 = 0 ∨ e2 = 1) ∧
      pr.confidence_score = 6 + e1 + e2 := by
  simp only [audit_page] at h
  split at h
  · simp at h
  · next hbr =>
    split at h
    · simp at h
    · split at h
      · next hoc =>
        rw [Option.some_inj] at h
        subst h
        refine ⟨hbr, hoc, rfl, ?_⟩
        refine ⟨(if 0 < (List.filter (fun r => decide (r.height * 3 < r.width))
            (extract_black_rectangles page bt 2 (19/20))).length then 1 else 0),
          (if 3 ≤ (extract_black_rectangles page bt 2 (19/20)).length then 1 else 0),
          by split <;> simp, by split <;> simp, ?_⟩
        have hlen : 0 < (extract_black_rectangles page bt 2 (19/20)).length :=
          List.length_pos_iff_ne_nil.mpr hbr
        simp only [if_pos hlen, if_pos hoc]
        ring
      · simp at h

/-- C1 (counterexample): on a page whose extracted opaque fills are exactly
the black rectangle (0,0,20,20) and whose text spans are exactly
(5,5,10,10), (15,15,20,20) and (100,100,110,110), `audit_page` with
`min_overlap_area = 4` and `min_hits = 1` returns a `PageRisk` whose
`overlap_count` is 1, not 2 as the claim states: `detect_overlaps` counts
overlapping fills (breaking after a fill's first qualifying span), not
overlapping spans. -/
theorem c1_counterexample :
    extract_black_rectangles c1_page (3/20) 2 (19/20) = [⟨0, 0, 20, 20⟩] ∧
    get_text_rectangles c1_page =
      [⟨5, 5, 10, 10⟩, ⟨15, 15, 20, 20⟩, ⟨100, 100, 110, 110⟩] ∧
    audit_page c1_page 1 (3/20) 4 1 = some c1_risk ∧
    c1_risk.overlap_count ≠ 2 := by
  refine ⟨?_, ?_, ?_, by norm_num [c1_risk]⟩ <;>
    · norm_num [audit_page, extract_black_rectangles, drawings_black_rects, drawing_candidates,
        keep_rect, dedup_rects, rect_close, is_color_black, get_text_rectangles, blocks_rects,
        lines_rects, spans_rects, span_rect_of_bbox, detect_overlaps, detect_overlaps_go,
        rect_overlaps_any, compute_overlap_area, Rect.inter, Rect.is_empty, Rect.is_valid,
        Rect.width, Rect.height, Rect.get_area, c1_page, c1_risk, max_def, min_def]
      try (intro h; simp at h)

/-- C1 (amended): on the C1 scenario page, `audit_page` with
`minOverlapArea = 4` and `minHits = 1` returns a flagged `PageRisk` whose
`overlap_count` equals 1 (the per-fill count, further capped at `minHits` by
the `stop_after` early exit) and whose `confidence_score` is at least 6
(exactly 6: +3 for fills present, +3 for overlaps meeting the threshold, no
shape or multiplicity bonus). -/
theorem c1_scenario_amended :
    audit_page c1_page 1 (3/20) 4 1 = some c1_risk ∧
    c1_risk.overlap_count = 1 ∧ 6 ≤ c1_risk.confidence_score := by
  refine ⟨?_, by norm_num [c1_risk], by norm_num [c1_risk]⟩
  norm_num [audit_page, extract_black_rectangles, drawings_black_rects, drawing_candidates,
    keep_rect, dedup_rects, rect_close, is_color_black, get_text_rectangles, blocks_rects,
    lines_rects, spans_rects, span_rect_of_bbox, detect_overlaps, detect_overlaps_go,
    rect_overlaps_any, compute_overlap_area, Rect.inter, Rect.is_empty, Rect.is_valid,
    Rect.width, Rect.height, Rect.get_area, c1_page, c1_risk, max_def, min_def]
  intro h
  simp at h

/-- C2: for every page and parameters with `minHits ≥ 1`, whenever
`audit_page` returns a `PageRisk`, its `overlap_count` equals `minHits`
exactly: the flag condition forces `overlap_count ≥ minHits`, and the
`stop_after = min_hits` early exit in `detect_overlaps` caps the count at
`minHits`. -/
theorem c2_flagged_count_eq_min_hits (page : Page) (page_num : ℤ) (bt moa : ℚ)
    (mh : ℤ) (hmh : 1 ≤ mh) (pr : PageRisk)
    (h : audit_page page page_num bt moa mh = some pr) :
    pr.overlap_count = mh := by
  obtain ⟨-, hge, hoc, -⟩ := audit_page_some_inv page page_num bt moa mh pr h
  have hle := detect_go_le (get_text_rectangles page) moa mh
    (extract_black_rectangles page bt 2 (19/20)) 0 (by omega)
  rw [hoc]
  have : detect_overlaps (extract_black_rectangles page bt 2 (19/20))
      (get_text_rectangles page) moa (some mh) =
      detect_overlaps_go (get_text_rectangles page) moa (some mh)
        (extract_black_rectangles page bt 2 (19/20)) 0 := rfl
  omega

/-- Witness for C2: on the concrete scenario page with `min_hits = 1`, the
returned `PageRisk` is `c1_risk`, whose `overlap_count` is 1. -/
theorem c2_flagged_count_eq_min_hits_witness :
    (1:ℤ) ≤ 1 ∧ c1_risk.overlap_count = 1 :=
  ⟨by norm_num,
   c2_flagged_count_eq_min_hits c1_page 1 (3/20) 4 1 (by norm_num) c1_risk (by
    norm_num [audit_page, extract_black_rectangles, drawings_black_rects, drawing_candidates,
      keep_rect, dedup_rects, rect_close, is_color_black, get_text_rectangles, blocks_rects,
      lines_rects, spans_rects, span_rect_of_bbox, detect_overlaps, detect_overlaps_go,
      rect_overlaps_any, compute_overlap_area, Rect.inter, Rect.is_empty, Rect.is_valid,
      Rect.width, Rect.height, Rect.get_area, c1_page, c1_risk, max_def, min_def]
    intro h
    simp at h)⟩

/-- C3: for every fill list, span list, minimum overlap area and integer
`k ≥ 1`, `detect_overlaps` with `stop_after = k` returns the minimum of `k`
and the unbounded count (`stop_after = None`), so the comparison against the
threshold `k` is unchanged by the early exit. -/
theorem c3_stop_after_min (black_rects text_rects : List Rect) (moa : ℚ)
    (k : ℤ) (hk : 1 ≤ k) :
    detect_overlaps black_rects text_rects moa (some k) =
      min (detect_overlaps black_rects text_rects moa none) k ∧
    (k ≤ detect_overlaps black_rects text_rects moa (some k) ↔
      k ≤ detect_overlaps black_rects text_rects moa none) := by
  have hmin := detect_go_min text_rects moa k black_rects 0 (by omega)
  constructor
  · exact hmin
  · unfold detect_overlaps
    rw [hmin]
    omega

/-- Witness for C3: concrete one-fill, one-span instance with `k = 1`. -/
theorem c3_stop_after_min_witness :
    detect_overlaps [(⟨0,0,20,20⟩ : Rect)] [(⟨5,5,10,10⟩ : Rect)] 4 (some 1) =
      min (detect_overlaps [(⟨0,0,20,20⟩ : Rect)] [(⟨5,5,10,10⟩ : Rect)] 4 none) 1 ∧
    (1 ≤ detect_overlaps [(⟨0,0,20,20⟩ : Rect)] [(⟨5,5,10,10⟩ : Rect)] 4 (some 1) ↔
      1 ≤ detect_overlaps [(⟨0,0,20,20⟩ : Rect)] [(⟨5,5,10,10⟩ : Rect)] 4 none) :=
  c3_stop_after_min [⟨0,0,20,20⟩] [⟨5,5,10,10⟩] 4 1 (by norm_num)

/-- C10: for every page and every parameter choice, whenever `audit_page`
returns a `PageRisk`, its `confidence_score` lies between 6 and 8: the +3
fills-present and +3 overlaps-meet-threshold bonuses always both apply on a
flagged page, and the two remaining bonuses add at most 1 each. -/
theorem c10_confidence_bounds (page : Page) (page_num : ℤ) (bt moa : ℚ)
    (mh : ℤ) (pr : PageRisk)
    (h : audit_page page page_num bt moa mh = some pr) :
    6 ≤ pr.confidence_score ∧ pr.confidence_score ≤ 8 := by
  obtain ⟨-, -, -, e1, e2, he1, he2, hcs⟩ := audit_page_some_inv page page_num bt moa mh pr h
  omega

/-- Witness for C10: on the concrete scenario page the returned `PageRisk`
is `c1_risk`, whose confidence score 6 lies in [6, 8]. -/
theorem c10_confidence_bounds_witness :
    6 ≤ c1_risk.confidence_score ∧ c1_risk.confidence_score ≤ 8 :=
  c10_confidence_bounds c1_page 1 (3/20) 4 1 c1_risk (by
    norm_num [audit_page, extract_black_rectangles, drawings_black_rects, drawing_candidates,
      keep_rect, dedup_rects, rect_close, is_color_black, get_text_rectangles, blocks_rects,
      lines_rects, spans_rects, span_rect_of_bbox, detect_overlaps, detect_overlaps_go,
      rect_overlaps_any, compute_overlap_area, Rect.inter, Rect.is_empty, Rect.is_valid,
      Rect.width, Rect.height, Rect.get_area, c1_page, c1_risk, max_def, min_def]
    intro h
    simp at h)

/-- Commutativity of the `fitz` rectangle intersection. -/
theorem rect_inter_comm (a b : Rect) : a.inter b = b.inter a := by
  simp only [Rect.inter, Rect.mk.injEq]
  exact ⟨max_comm _ _, max_comm _ _, min_comm _ _, min_comm _ _⟩

/-- An empty rectangle has zero area under the `max 0` width/height model. -/
theorem rect_empty_area {a : Rect} (h : a.is_empty = true) : a.get_area = 0 := by
  simp only [Rect.is_empty, Bool.or_eq_true, decide_eq_true_eq] at h
  unfold Rect.get_area Rect.width Rect.height
  rcases h with h | h
  · rw [max_eq_left (show a.x1 - a.x0 ≤ (0:ℚ) by linarith)]
    simp
  · rw [max_eq_left (show a.y1 - a.y0 ≤ (0:ℚ) by linarith)]
    simp

/-- A non-empty rectangle is valid. -/
theorem rect_not_empty_valid {a : Rect} (h : a.is_empty = false) : a.is_valid = true := by
  simp only [Rect.is_empty, Bool.or_eq_false_iff, decide_eq_false_iff_not, not_le] at h
  simp only [Rect.is_valid, Bool.and_eq_true, decide_eq_true_eq]
  exact ⟨le_of_lt h.1, le_of_lt h.2⟩

/-- The overlap area is zero whenever the intersection is empty. -/
theorem coa_empty {a b : Rect} (h : (a.inter b).is_empty = true) :
    compute_overlap_area a b = 0 := by
  simp [compute_overlap_area, h]

/-- When the intersection equals the first rectangle, the overlap area is
that rectangle's area (in both the empty and the non-empty case). -/
theorem coa_inter_self {a b : Rect} (h : a.inter b = a) :
    compute_overlap_area a b = a.get_area := by
  simp only [compute_overlap_area, h]
  cases he : a.is_empty with
  | true => simp [rect_empty_area he]
  | false => simp [he, rect_not_empty_valid he]

/-- A rectangle is degenerate exactly when it collapses along one axis. -/
theorem rect_degenerate_iff (a : Rect) :
    a.degenerate ↔ a.x1 ≤ a.x0 ∨ a.y1 ≤ a.y0 := by
  unfold Rect.degenerate Rect.get_area Rect.width Rect.height
  constructor
  · intro h
    rcases mul_eq_zero.mp h with h | h <;> [left; right] <;>
      · rw [max_eq_left_iff] at h
        linarith
  · rintro (h | h)
    · rw [max_eq_left (show a.x1 - a.x0 ≤ (0:ℚ) by linarith)]
      simp
    · rw [max_eq_left (show a.y1 - a.y0 ≤ (0:ℚ) by linarith)]
      simp

/-- C5: `compute_overlap_area` is commutative; it returns 0 on disjoint
rectangles and whenever either rectangle is degenerate (zero area); a
rectangle intersected with itself yields its own area; and a rectangle fully
inside another yields its own area. -/
theorem c5_overlap_area_algebra (a b : Rect) :
    compute_overlap_area a b = compute_overlap_area b a ∧
    (a.disjoint b → compute_overlap_area a b = 0) ∧
    (a.degenerate ∨ b.degenerate → compute_overlap_area a b = 0) ∧
    compute_overlap_area a a = a.get_area ∧
    (a.insideOf b → compute_overlap_area a b = a.get_area) := by
  have hcomm : compute_overlap_area a b = compute_overlap_area b a := by
    unfold compute_overlap_area
    rw [rect_inter_comm]
  have hxzero : ∀ c d : Rect, c.x1 ≤ c.x0 → compute_overlap_area c d = 0 := by
    intro c d h
    apply coa_empty
    simp only [Rect.is_empty, Rect.inter, Bool.or_eq_true, decide_eq_true_eq]
    exact Or.inl (le_trans (min_le_left _ _) (le_trans h (le_max_left _ _)))
  have hyzero : ∀ c d : Rect, c.y1 ≤ c.y0 → compute_overlap_area c d = 0 := by
    intro c d h
    apply coa_empty
    simp only [Rect.is_empty, Rect.inter, Bool.or_eq_true, decide_eq_true_eq]
    exact Or.inr (le_trans (min_le_left _ _) (le_trans h (le_max_left _ _)))
  refine ⟨hcomm, ?_, ?_, ?_, ?_⟩
  · rintro (h | h | h | h)
    · apply coa_empty
      simp only [Rect.is_empty, Rect.inter, Bool.or_eq_true, decide_eq_true_eq]
      exact Or.inl (le_trans (min_le_left _ _) (le_trans h (le_max_right _ _)))
    · apply coa_empty
      simp only [Rect.is_empty, Rect.inter, Bool.or_eq_true, decide_eq_true_eq]
      exact Or.inl (le_trans (min_le_right _ _) (le_trans h (le_max_left _ _)))
    · apply coa_empty
      simp only [Rect.is_empty, Rect.inter, Bool.or_eq_true, decide_eq_true_eq]
      exact Or.inr (le_trans (min_le_left _ _) (le_trans h (le_max_right _ _)))
    · apply coa_empty
      simp only [Rect.is_empty, Rect.inter, Bool.or_eq_true, decide_eq_true_eq]
      exact Or.inr (le_trans (min_le_right _ _) (le_trans h (le_max_left _ _)))
  · rintro (h | h)
    · rcases (rect_degenerate_iff a).mp h with h | h
      · exact hxzero a b h
      · exact hyzero a b h
    · rcases (rect_degenerate_iff b).mp h with h | h
      · rw [hcomm]; exact hxzero b a h
      · rw [hcomm]; exact hyzero b a h
  · apply coa_inter_self
    cases a with
    | mk ax0 ay0 ax1 ay1 => simp [Rect.inter]
  · rintro ⟨h1, h2, h3, h4⟩
    apply coa_inter_self
    cases a with
    | mk ax0 ay0 ax1 ay1 =>
      simp only [Rect.inter, Rect.mk.injEq]
      exact ⟨max_eq_left h1, max_eq_left h3, min_eq_left h2, min_eq_left h4⟩

/-- Witness for C5: a concrete disjoint pair yields area 0, and a concrete
contained pair yields the inner rectangle's area. -/
theorem c5_overlap_area_algebra_witness :
    compute_overlap_area ⟨0, 0, 4, 4⟩ ⟨10, 0, 12, 4⟩ = 0 ∧
    compute_overlap_area ⟨1, 1, 3, 3⟩ ⟨0, 0, 4, 4⟩ = Rect.get_area ⟨1, 1, 3, 3⟩ := by
  constructor
  · exact (c5_overlap_area_algebra ⟨0, 0, 4, 4⟩ ⟨10, 0, 12, 4⟩).2.1 (Or.inl (by norm_num))
  · exact (c5_overlap_area_algebra ⟨1, 1, 3, 3⟩ ⟨0, 0, 4, 4⟩).2.2.2.2
      ⟨by norm_num, by norm_num, by norm_num, by norm_num⟩

/-- C4 (counterexample): on the 2-component color (0, 0), where the claim
demands `false` for any arity other than 1, 3 or 4, `is_color_black` returns
`true` via the code's fallback branch `all(c <= threshold for c in color)`. -/
theorem c4_counterexample : is_color_black [0, 0] (3/20) = true := by
  norm_num [is_color_black]

/-- C4 (amended): for every threshold in [0,1], `is_color_black` follows the
per-space rule — grayscale iff the value is at most the threshold; RGB iff
all three components are; CMYK iff K is at least 1 - threshold and C, M, Y
are at most the threshold; the empty (or missing) color yields false; and
any OTHER non-empty arity falls back to requiring every component to be at
most the threshold (rather than yielding false as the claim states). -/
theorem c4_per_space_rule_amended (threshold : ℚ)
    (h0 : 0 ≤ threshold) (h1 : threshold ≤ 1) :
    (is_color_black [] threshold = false) ∧
    (∀ g : ℚ, is_color_black [g] threshold = true ↔ g ≤ threshold) ∧
    (∀ r g b : ℚ, is_color_black [r, g, b] threshold = true ↔
      r ≤ threshold ∧ g ≤ threshold ∧ b ≤ threshold) ∧
    (∀ c m y k : ℚ, is_color_black [c, m, y, k] threshold = true ↔
      1 - threshold ≤ k ∧ c ≤ threshold ∧ m ≤ threshold ∧ y ≤ threshold) ∧
    (∀ color : List ℚ, color ≠ [] → color.length ≠ 1 → color.length ≠ 3 →
      color.length ≠ 4 →
      (is_color_black color threshold = true ↔ ∀ comp ∈ color, comp ≤ threshold)) := by
  refine ⟨rfl, ?_, ?_, ?_, ?_⟩
  · intro g
    simp [is_color_black]
  · intro r g b
    simp [is_color_black, and_assoc]
  · intro c m y k
    simp [is_color_black, and_assoc]
  · intro color hne hl1 hl3 hl4
    match color with
    | [] => exact absurd rfl hne
    | [a] => exact absurd rfl hl1
    | [a, b] => simp [is_color_black]
    | [a, b, c] => exact absurd rfl hl3
    | [a, b, c, d] => exact absurd rfl hl4
    | a :: b :: c :: d :: e :: rest => simp [is_color_black]

/-- Witness for C4: at threshold 0.15, the grayscale rule applied to the
concrete value 0.1. -/
theorem c4_per_space_rule_amended_witness :
    (0:ℚ) ≤ 3/20 ∧ (3/20:ℚ) ≤ 1 ∧
    (is_color_black [1/10] (3/20) = true ↔ (1/10:ℚ) ≤ 3/20) :=
  ⟨by norm_num, by norm_num,
   (c4_per_space_rule_amended (3/20) (by norm_num) (by norm_num)).2.1 (1/10)⟩

/-- Decomposition of the sequentially-added risk score as the clamped sum of
the per-signal contribution list. -/
theorem score_eq_sum (f : AdvancedSecurityFindings) :
    calculate_risk_score f = min (risk_contributions f).sum 100 := by
  simp only [calculate_risk_score, risk_contributions, List.sum_cons, List.sum_nil]
  congr 1
  ring

/-- C6: `calculate_risk_score` equals the sum of the fixed weights of the
applicable signals clamped to [0,100], invariantly under any permutation of
the contribution order; and the findings with hidden text, definite overlay
risk and JavaScript (and nothing else) score exactly 15 + 20 + 15 = 50. -/
theorem c6_risk_score_additive :
    (∀ (f : AdvancedSecurityFindings) (l : List ℤ),
      List.Perm (risk_contributions f) l →
        calculate_risk_score f = min l.sum 100) ∧
    (∀ f : AdvancedSecurityFindings,
      0 ≤ calculate_risk_score f ∧ calculate_risk_score f ≤ 100) ∧
    calculate_risk_score c6_findings = 50 := by
  refine ⟨?_, ?_, ?_⟩
  · intro f l hperm
    rw [score_eq_sum, hperm.sum_eq]
  · intro f
    rw [score_eq_sum]
    refine ⟨le_min ?_ (by norm_num), min_le_right _ _⟩
    apply List.sum_nonneg
    intro x hx
    simp only [risk_contributions, List.mem_cons, List.not_mem_nil, or_false] at hx
    rcases hx with rfl | rfl | rfl | rfl | rfl | rfl | rfl | rfl | rfl | rfl | rfl | rfl | rfl <;>
      split_ifs <;> norm_num
  · decide

/-- Witness for C6: a concrete permutation of the contribution list of
`c6_findings` still gives the clamped sum. -/
theorem c6_risk_score_additive_witness :
    calculate_risk_score c6_findings =
      min ([20, 15, 15, 0, 0, 0, 0, 0, 0, 0, 0, 0, 0] : List ℤ).sum 100 :=
  c6_risk_score_additive.1 c6_findings [20, 15, 15, 0, 0, 0, 0, 0, 0, 0, 0, 0, 0] (by decide)

/-- C7: for every encrypted document failing empty-password authentication,
`audit_pdf` reports the explicit encrypted-document error with zero total
pages and no flagged pages; the result is independent of the document's page
contents (no page access); and `audit_directory` returns one report per
input file, each produced by `audit_pdf`, so no single document's failure
aborts the batch. -/
theorem c7_encrypted_short_circuit (filename : String) (d : Doc)
    (henc : d.is_encrypted = true) (hauth : d.auth_empty = false)
    (bt moa : ℚ) (mh : ℤ) :
    (audit_pdf filename d bt moa mh).error = some encrypted_error_msg ∧
    (audit_pdf filename d bt moa mh).total_pages = 0 ∧
    (audit_pdf filename d bt moa mh).flagged_pages = [] ∧
    (∀ ps : List Page,
      audit_pdf filename { pages := ps, is_encrypted := true, auth_empty := false } bt moa mh =
        audit_pdf filename d bt moa mh) ∧
    (∀ files : List (String × Doc),
      (audit_directory files bt moa mh).length = files.length ∧
      ∀ (i : ℕ) (hi : i < files.length) (hi2 : i < (audit_directory files bt moa mh).length),
        (audit_directory files bt moa mh).get ⟨i, hi2⟩ =
          audit_pdf (files.get ⟨i, hi⟩).1 (files.get ⟨i, hi⟩).2 bt moa mh) := by
  refine ⟨?_, ?_, ?_, ?_, ?_⟩
  · simp [audit_pdf, henc, hauth]
  · simp [audit_pdf, henc, hauth]
  · simp [audit_pdf, henc, hauth]
  · intro ps
    simp [audit_pdf, henc, hauth]
  · intro files
    refine ⟨by simp [audit_directory], ?_⟩
    intro i hi hi2
    simp [audit_directory, List.get_eq_getElem, List.getElem_map]

/-- Witness for C7: a concrete encrypted document produces the explicit
error report. -/
theorem c7_encrypted_short_circuit_witness :
    (audit_pdf "a.pdf" { pages := [], is_encrypted := true, auth_empty := false } 0 0 1).error =
      some encrypted_error_msg :=
  (c7_encrypted_short_circuit "a.pdf"
    { pages := [], is_encrypted := true, auth_empty := false } rfl rfl 0 0 1).1

/-- Shape-only dependence of the per-line span extraction: spans agreeing on
their bounding boxes yield the same rectangles, whatever their characters. -/
theorem spans_rects_shape :
    ∀ s t : List RawSpan, s.map RawSpan.bbox = t.map RawSpan.bbox →
      spans_rects s = spans_rects t := by
  intro s
  induction s with
  | nil =>
    intro t h
    cases t with
    | nil => rfl
    | cons b bt => simp at h
  | cons a st ih =>
    intro t h
    cases t with
    | nil => simp at h
    | cons b bt =>
      simp only [List.map_cons, List.cons.injEq] at h
      simp only [spans_rects, h.1, ih bt h.2]

/-- Shape-only dependence of the per-block line extraction. -/
theorem lines_rects_shape :
    ∀ s t : List RawLine,
      s.map (fun l => l.spans.map RawSpan.bbox) = t.map (fun l => l.spans.map RawSpan.bbox) →
      lines_rects s = lines_rects t := by
  intro s
  induction s with
  | nil =>
    intro t h
    cases t with
    | nil => rfl
    | cons b bt => simp at h
  | cons a st ih =>
    intro t h
    cases t with
    | nil => simp at h
    | cons b bt =>
      simp only [List.map_cons, List.cons.injEq] at h
      simp only [lines_rects, spans_rects_shape a.spans b.spans h.1, ih bt h.2]

/-- Shape-only dependence of the block extraction. -/
theorem blocks_rects_shape :
    ∀ s t : List RawBlock,
      s.map (fun b => (b.type, b.lines.map fun l => l.spans.map RawSpan.bbox)) =
        t.map (fun b => (b.type, b.lines.map fun l => l.spans.map RawSpan.bbox)) →
      blocks_rects s = blocks_rects t := by
  intro s
  induction s with
  | nil =>
    intro t h
    cases t with
    | nil => rfl
    | cons b bt => simp at h
  | cons a st ih =>
    intro t h
    cases t with
    | nil => simp at h
    | cons b bt =>
      simp only [List.map_cons, List.cons.injEq, Prod.mk.injEq] at h
      simp only [blocks_rects, h.1.1, lines_rects_shape a.lines b.lines h.1.2, ih bt h.2]

/-- C9: `get_text_rectangles` is non-interferent with span text content —
any two pages agreeing on block types, line/span structure and span bounding
boxes but with arbitrarily different span character content produce
identical rectangle lists (the `List Rect` result carries coordinates only,
never text). -/
theorem c9_geometry_noninterference (p q : Page)
    (h : p.rawdict.blocks.map
          (fun b => (b.type, b.lines.map fun l => l.spans.map RawSpan.bbox)) =
        q.rawdict.blocks.map
          (fun b => (b.type, b.lines.map fun l => l.spans.map RawSpan.bbox))) :
    get_text_rectangles p = get_text_rectangles q :=
  blocks_rects_shape p.rawdict.blocks q.rawdict.blocks h

/-- Witness for C9: the page with sensitive span text and its blanked copy
yield the same rectangles. -/
theorem c9_geometry_noninterference_witness :
    get_text_rectangles c9_page_redacted = get_text_rectangles c9_page_blank :=
  c9_geometry_noninterference c9_page_redacted c9_page_blank (by rfl)

/-- Membership in the accumulated OCR page-number list: `m` occurs exactly
when some page at 0-based index `i` satisfies the per-page OCR test and
`m = n + i`. -/
theorem mem_ocr_pages_from :
    ∀ (pages : List SecPage) (n m : ℤ),
      m ∈ ocr_pages_from n pages ↔
        ∃ (i : ℕ) (hi : i < pages.length),
          m = n + i ∧ page_is_ocr (pages.get ⟨i, hi⟩) = true := by
  intro pages
  induction pages with
  | nil =>
    intro n m
    simp [ocr_pages_from]
  | cons p rest ih =>
    intro n m
    by_cases hp : page_is_ocr p = true
    · simp only [ocr_pages_from, if_pos hp, List.mem_cons, ih (n + 1) m]
      constructor
      · rintro (rfl | ⟨j, hj, rfl, hocr⟩)
        · exact ⟨0, by simp, by simp, by simpa using hp⟩
        · refine ⟨j + 1, by simpa using hj, by push_cast; ring, ?_⟩
          simpa using hocr
      · rintro ⟨i, hi, rfl, hocr⟩
        cases i with
        | zero => left; simp
        | succ j =>
          right
          refine ⟨j, by simpa using hi, by push_cast; ring, ?_⟩
          simpa using hocr
    · simp only [ocr_pages_from, if_neg hp, ih (n + 1) m]
      constructor
      · rintro ⟨j, hj, rfl, hocr⟩
        refine ⟨j + 1, by simpa using hj, by push_cast; ring, ?_⟩
        simpa using hocr
      · rintro ⟨i, hi, rfl, hocr⟩
        cases i with
        | zero => exact absurd (by simpa using hocr) hp
        | succ j =>
          refine ⟨j, by simpa using hi, by push_cast; ring, ?_⟩
          simpa using hocr

/-- A filter keeps the full length exactly when every element passes. -/
theorem filter_length_eq_iff {α : Type} (f : α → Bool) :
    ∀ l : List α, ((l.filter f).length = l.length ↔ ∀ x ∈ l, f x = true) := by
  intro l
  induction l with
  | nil => simp
  | cons a t ih =>
    cases hfa : f a with
    | true => simp [List.filter_cons, hfa, ih]
    | false =>
      have hle := List.length_filter_le f t
      simp only [List.filter_cons, hfa, Bool.false_eq_true, if_false, List.length_cons]
      constructor
      · intro hlen
        exact absurd hlen (by omega)
      · intro hall
        exact absurd (hall a (List.mem_cons_self a t)) (by simp [hfa])

/-- Propositional form of the per-page OCR test. -/
theorem page_is_ocr_iff (p : SecPage) :
    page_is_ocr p = true ↔
      (∃ img rest, p.images = img :: rest ∧ 1000 < img.width ∧ 1000 < img.height) ∧
      p.text ≠ "" := by
  cases himg : p.images with
  | nil => simp [page_is_ocr, himg]
  | cons img rest =>
    simp only [page_is_ocr, himg, Bool.and_eq_true, decide_eq_true_eq]
    constructor
    · rintro ⟨⟨hw, hh⟩, ht⟩
      exact ⟨⟨img, rest, rfl, hw, hh⟩, ht⟩
    · rintro ⟨⟨img2, rest2, heq, hw, hh⟩, ht⟩
      injection heq with h1 h2
      subst h1
      exact ⟨⟨hw, hh⟩, ht⟩

/-- C8 (amended): `check_ocr_layer` classifies (1-indexed) page `i + 1` as
an OCR-layer page exactly when that page's FIRST embedded image is strictly
larger than 1000 in both dimensions and the page has non-empty text (not "at
least 1000 x 1000", and images beyond the first are ignored); the document
is flagged scanned when strictly more than 30% of its pages qualify, or when
every page has an image and every page has text; and the has-OCR flag holds
exactly when some page qualifies. -/
theorem c8_ocr_heuristic_amended (pages : List SecPage) :
    (∀ (i : ℕ) (hi : i < pages.length),
      (((i : ℤ) + 1) ∈ (check_ocr_layer pages).2.1 ↔
        (∃ img rest, (pages.get ⟨i, hi⟩).images = img :: rest ∧
            1000 < img.width ∧ 1000 < img.height) ∧
        (pages.get ⟨i, hi⟩).text ≠ "")) ∧
    ((check_ocr_layer pages).2.2 = true ↔
      ((pages.length : ℚ) * (3/10) < ((check_ocr_layer pages).2.1.length : ℚ) ∨
        ∀ p ∈ pages, p.images ≠ [] ∧ p.text ≠ "")) ∧
    ((check_ocr_layer pages).1 = true ↔ (check_ocr_layer pages).2.1 ≠ []) := by
  refine ⟨?_, ?_, ?_⟩
  · intro i hi
    simp only [check_ocr_layer]
    rw [mem_ocr_pages_from pages 1 ((i : ℤ) + 1)]
    constructor
    · rintro ⟨j, hj, heq, hocr⟩
      have hij : j = i := by omega
      subst hij
      exact (page_is_ocr_iff _).mp hocr
    · intro hspec
      exact ⟨i, hi, by ring, (page_is_ocr_iff _).mpr hspec⟩
  · simp only [check_ocr_layer, Bool.or_eq_true, Bool.and_eq_true, decide_eq_true_eq]
    constructor
    · rintro (h | ⟨hA, hB⟩)
      · exact Or.inl h
      · refine Or.inr ?_
        intro p hp
        rw [filter_length_eq_iff] at hA hB
        exact ⟨by simpa using hA p hp, by simpa using hB p hp⟩
    · rintro (h | hall)
      · exact Or.inl h
      · refine Or.inr ⟨?_, ?_⟩ <;> rw [filter_length_eq_iff] <;> intro p hp
        · simpa using (hall p hp).1
        · simpa using (hall p hp).2
  · simp only [check_ocr_layer, decide_eq_true_eq]
    exact List.length_pos_iff_ne_nil

/-- C8 (counterexample): a single page whose first (and only) embedded image
is exactly 1000 x 1000 with non-empty text — "at least 1000 x 1000" in the
claim's sense — is NOT classified as an OCR-layer page by the code (which
requires strictly more than 1000), so the claim's "exactly when" fails. -/
theorem c8_counterexample :
    check_ocr_layer [c8_page_exact1000] = (false, [], true) ∧
    ¬ ((1:ℤ) ∈ (check_ocr_layer [c8_page_exact1000]).2.1) := by
  constructor
  · simp [check_ocr_layer, ocr_pages_from, page_is_ocr, c8_page_exact1000]
  · simp [check_ocr_layer, ocr_pages_from, page_is_ocr, c8_page_exact1000]

/-- Witness for C8: a single page with a 1400 x 1001 first image and text is
classified as OCR page number 1. -/
theorem c8_ocr_heuristic_amended_witness :
    (((0:ℕ) : ℤ) + 1) ∈ (check_ocr_layer [c8_page_1001]).2.1 :=
  ((c8_ocr_heuristic_amended [c8_page_1001]).1 0 (by norm_num)).mpr
    ⟨⟨{ width := 1400, height := 1001 }, [], rfl, by norm_num, by norm_num⟩, by
      simp [c8_page_1001]⟩
